import Mathlib

/-!
Shallow embedding of `tools/tiny-test-fw/IDF/IDFDUT.py`.

The module is a serial DUT driver: a decorator `_tool_method` that closes the
session's serial port, runs an esptool-invoking method and reopens the port;
`start_app`, a baud-rate retry loop around the external flasher; `reset`,
`erase_partition` and `dump_flush`, thin esptool wrappers; and the classmethod
`list_available_ports`, which orders the enumerated serial ports around the
`ESPPORT` hint.

External effects are made explicit: the outcome of each
`subprocess.check_output` call is a parameter `runTool` (`Except.error` models
`subprocess.CalledProcessError`, carrying the captured output), and the mutable
session resources (serial port open/closed, the temporary blank-NVS file, the
`.erase_partition.tmp` contents, the list of spawned tool command lines) are
threaded through a `DutState` record.
-/

/-- Python substring test (`pat in s`) on the underlying character lists. -/
def listContainsSub (pat : List Char) : List Char → Bool
  | [] => pat.isEmpty
  | c :: cs => pat.isPrefixOf (c :: cs) || listContainsSub pat cs

/-- Python `pat in s` for strings; also the meaning of `re.search` for a
pattern that is a bare literal (no metacharacters). -/
def pyIn (pat s : String) : Bool := listContainsSub pat.toList s.toList

/-- `INVALID_PORT_PATTERN = re.compile(r"AMA|Bluetooth")` — `search(x)` finds a
match exactly when one of the alternated literals occurs as a substring. -/
def INVALID_PORT_PATTERN_search (x : String) : Bool :=
  pyIn "AMA" x || pyIn "Bluetooth" x

/-- Python `str.replace(old, new)` on character lists: left-to-right,
non-overlapping, all occurrences. (The call site uses the fixed non-empty
pattern `"tty."`; an empty pattern is mapped to the identity here.) The
recursion is driven by a fuel argument so that it is structural: every step
consumes at least one input character, so fuel `= length of the input`
suffices and the `0` case is never reached from `strReplace`. -/
def replaceChars (pat rep : List Char) : Nat → List Char → List Char
  | _, [] => []
  | 0, l => l
  | fuel + 1, c :: cs =>
    if !pat.isEmpty && pat.isPrefixOf (c :: cs) then
      rep ++ replaceChars pat rep fuel (cs.drop (pat.length - 1))
    else
      c :: replaceChars pat rep fuel cs

/-- Python `s.replace(pat, rep)` for strings. -/
def strReplace (s pat rep : String) : String :=
  ⟨replaceChars pat.toList rep.toList s.toList.length s.toList⟩

/-- `IDFDUT.list_available_ports` (lines 164-196). `ports` is the
`list_ports.comports()` device-name enumeration, `espport` models
`os.getenv('ESPPORT')` (`none` = variable unset; Python treats both `None` and
the empty string as "no hint" via `if not espport`), `platform` models
`sys.platform`. The py2/py3 `decode('utf8')` normalisation is the identity
here since our strings are already decoded. -/
def list_available_ports (ports : List String) (espport : Option String)
    (platform : String) : List String :=
  match espport with
  | none => ports.filter (fun x => !INVALID_PORT_PATTERN_search x)
  | some hint =>
    if hint = "" then
      ports.filter (fun x => !INVALID_PORT_PATTERN_search x)
    else
      -- If $ESPPORT is a valid port, make it appear first in the list
      if hint ∈ ports then
        hint :: ports.erase hint
      else
        -- 'tty.' to 'cu.' translation attempted only on macOS
        if platform = "darwin" ∧ pyIn "tty." hint = true then
          let port_hint := strReplace hint "tty." "cu."
          if port_hint ∈ ports then
            port_hint :: ports.erase port_hint
          else
            ports
        else
          ports

section PortSelectionHelpers

/-- Helper: the exact-hint branch (lines 183-186). -/
theorem lap_hint_first (ports : List String) (hint platform : String)
    (hne : hint ≠ "") (hmem : hint ∈ ports) :
    list_available_ports ports (some hint) platform = hint :: ports.erase hint := by
  simp [list_available_ports, hne, hmem]

/-- Helper: the macOS translation branch (lines 188-194). -/
theorem lap_mac_translation (ports : List String) (hint platform : String)
    (hne : hint ≠ "") (hnm : hint ∉ ports) (hplat : platform = "darwin")
    (htty : pyIn "tty." hint = true)
    (hmem : strReplace hint "tty." "cu." ∈ ports) :
    list_available_ports ports (some hint) platform =
      strReplace hint "tty." "cu." :: ports.erase (strReplace hint "tty." "cu.") := by
  simp [list_available_ports, hne, hnm, hplat, htty, hmem]

/-- Helper: the fall-through branch (line 196). -/
theorem lap_no_match (ports : List String) (hint platform : String)
    (hne : hint ≠ "") (hnm : hint ∉ ports)
    (hmac : ¬ (platform = "darwin" ∧ pyIn "tty." hint = true ∧
               strReplace hint "tty." "cu." ∈ ports)) :
    list_available_ports ports (some hint) platform = ports := by
  simp only [list_available_ports]
  rw [if_neg hne, if_neg hnm]
  by_cases hd : platform = "darwin" ∧ pyIn "tty." hint = true
  · rw [if_pos hd]
    rw [if_neg (fun hmem => hmac ⟨hd.1, hd.2, hmem⟩)]
  · rw [if_neg hd]

end PortSelectionHelpers

/-- Claim C4: when the hint exactly matches an enumerated port, the returned
list is the hint first, followed by the remaining ports in their original
relative order with the hint removed from its original position. (An empty
hint is treated by the code as "no hint supplied", hence the `hint ≠ ""`
hypothesis.) -/
theorem c4_hint_first (ports : List String) (hint platform : String)
    (hne : hint ≠ "") (hmem : hint ∈ ports) :
    list_available_ports ports (some hint) platform = hint :: ports.erase hint :=
  lap_hint_first ports hint platform hne hmem

/-- Witness for C4 at the spec's own example. -/
theorem c4_hint_first_witness :
    ("/dev/ttyUSB1" : String) ≠ "" ∧ "/dev/ttyUSB1" ∈ ["/dev/ttyUSB0", "/dev/ttyUSB1"] ∧
    list_available_ports ["/dev/ttyUSB0", "/dev/ttyUSB1"] (some "/dev/ttyUSB1") "linux" =
      ["/dev/ttyUSB1", "/dev/ttyUSB0"] :=
  ⟨by decide, by decide,
    (c4_hint_first ["/dev/ttyUSB0", "/dev/ttyUSB1"] "/dev/ttyUSB1" "linux"
      (by decide) (by decide)).trans (by decide)⟩

/-- Claim C5: with no hint supplied, the result is exactly the enumerated
ports whose names do not match the invalid-port pattern (substring `"AMA"` or
`"Bluetooth"`), in their original relative order: the result is a sublist of
the input (order preserved), membership holds iff the port was enumerated and
is not invalid, so no valid port is dropped and no invalid port survives. -/
theorem c5_no_hint_filter (ports : List String) (platform : String) :
    (list_available_ports ports none platform).Sublist ports ∧
    ∀ p, p ∈ list_available_ports ports none platform ↔
      (p ∈ ports ∧ INVALID_PORT_PATTERN_search p = false) := by
  constructor
  · exact List.filter_sublist ports
  · intro p
    simp [list_available_ports, List.mem_filter]

/-- Claim C6: if the hint matches no port, the platform is macOS (`darwin`),
the hint contains `"tty."`, and replacing `"tty."` by `"cu."` yields an
enumerated port, then the translated hint comes first, followed by the
remaining ports in original relative order. -/
theorem c6_mac_translation (ports : List String) (hint platform : String)
    (hne : hint ≠ "") (hnm : hint ∉ ports) (hplat : platform = "darwin")
    (htty : pyIn "tty." hint = true)
    (hmem : strReplace hint "tty." "cu." ∈ ports) :
    list_available_ports ports (some hint) platform =
      strReplace hint "tty." "cu." :: ports.erase (strReplace hint "tty." "cu.") :=
  lap_mac_translation ports hint platform hne hnm hplat htty hmem

/-- Witness for C6 at the spec's own example. -/
theorem c6_mac_translation_witness :
    strReplace "/dev/tty.SLAB_USBtoUART" "tty." "cu." = "/dev/cu.SLAB_USBtoUART" ∧
    list_available_ports ["/dev/cu.SLAB_USBtoUART"] (some "/dev/tty.SLAB_USBtoUART") "darwin" =
      ["/dev/cu.SLAB_USBtoUART"] :=
  ⟨by decide,
    (c6_mac_translation ["/dev/cu.SLAB_USBtoUART"] "/dev/tty.SLAB_USBtoUART" "darwin"
      (by decide) (by decide) rfl (by decide) (by decide)).trans (by decide)⟩

/-- Claim C7: whenever the hint matches a port directly, or matches after the
macOS tty-to-cu translation, the returned list is a permutation of the input
enumeration — every input port occurs exactly as often as in the input. -/
theorem c7_perm (ports : List String) (hint platform : String) (hne : hint ≠ "")
    (h : hint ∈ ports ∨ (hint ∉ ports ∧ platform = "darwin" ∧
         pyIn "tty." hint = true ∧ strReplace hint "tty." "cu." ∈ ports)) :
    List.Perm (list_available_ports ports (some hint) platform) ports := by
  rcases h with hmem | ⟨hnm, hplat, htty, hmem⟩
  · rw [lap_hint_first ports hint platform hne hmem]
    exact (List.perm_cons_erase hmem).symm
  · rw [lap_mac_translation ports hint platform hne hnm hplat htty hmem]
    exact (List.perm_cons_erase hmem).symm

/-- Witness for C7: a direct-match instance. -/
theorem c7_perm_witness :
    List.Perm
      (list_available_ports ["/dev/ttyUSB0", "/dev/ttyUSB1"] (some "/dev/ttyUSB1") "linux")
      ["/dev/ttyUSB0", "/dev/ttyUSB1"] :=
  c7_perm ["/dev/ttyUSB0", "/dev/ttyUSB1"] "/dev/ttyUSB1" "linux" (by decide)
    (Or.inl (by decide))

/-- Claim C9: a non-empty hint that matches no enumerated port, neither
directly nor via the macOS tty-to-cu translation, yields the enumeration
unmodified — in particular ports matching the invalid-port pattern are NOT
filtered out in this branch. -/
theorem c9_no_match_unfiltered (ports : List String) (hint platform : String)
    (hne : hint ≠ "") (hnm : hint ∉ ports)
    (hmac : ¬ (platform = "darwin" ∧ pyIn "tty." hint = true ∧
               strReplace hint "tty." "cu." ∈ ports)) :
    list_available_ports ports (some hint) platform = ports :=
  lap_no_match ports hint platform hne hnm hmac

/-- Witness for C9: the unmatched hint leaves even the invalid `AMA` port in
place. -/
theorem c9_no_match_unfiltered_witness :
    list_available_ports ["/dev/ttyAMA0", "/dev/ttyUSB0"] (some "/dev/ttyUSB9") "linux" =
      ["/dev/ttyAMA0", "/dev/ttyUSB0"] ∧
    INVALID_PORT_PATTERN_search "/dev/ttyAMA0" = true :=
  ⟨c9_no_match_unfiltered ["/dev/ttyAMA0", "/dev/ttyUSB0"] "/dev/ttyUSB9" "linux"
      (by decide) (by decide) (by decide),
    by decide⟩

/-- Exceptions observable from the modelled methods. `keyError` models the
Python `KeyError` from a missing `partition_table` entry; `idfToolError` is
the module's own `IDFToolError(msg)`; `calledProcessError` is
`subprocess.CalledProcessError` carrying the captured tool output. -/
inductive PyExc where
  | keyError (key : String)
  | idfToolError (msg : String)
  | calledProcessError (output : String)
deriving DecidableEq

/-- The `tempfile.NamedTemporaryFile()` holding the blank NVS image:
whether it is still open, and the bytes written to it. -/
structure TempFile where
  isOpen : Bool
  bytes : List Nat
deriving DecidableEq

/-- The mutable session resources threaded through the methods: whether the
serial port is open (`self.open()` / `self.close()`), the blank-NVS temporary
file of `start_app` (if one was created), the bytes written to
`.erase_partition.tmp` (if any), and the command lines handed to
`subprocess.check_output`, in order. -/
structure DutState where
  portOpen : Bool
  nvsFile : Option TempFile
  eraseTmp : Option (List Nat)
  calls : List (List String)
deriving DecidableEq

/-- The outcome of one `subprocess.check_output(args)` call: a non-zero exit
(`runTool args = .error out`) raises `CalledProcessError` with the captured
output. -/
def checkOutputExc (runTool : List String → Except String Unit)
    (args : List String) : Except PyExc Unit :=
  match runTool args with
  | .ok _ => .ok ()
  | .error out => .error (.calledProcessError out)

/-- One `subprocess.check_output(args)` call: records the spawned command line
and returns `checkOutputExc`. -/
def runCheckOutput (runTool : List String → Except String Unit)
    (args : List String) (s : DutState) : Except PyExc Unit × DutState :=
  (checkOutputExc runTool args, { s with calls := s.calls ++ [args] })

/-- The `_tool_method` decorator (lines 33-41): `self.close()`, run the
wrapped method, `self.open()`, return. There is no try/finally around the
wrapped call, so when it raises, `self.open()` is never executed and the
exception propagates with the port still closed. -/
def toolMethod (body : DutState → Except PyExc α × DutState)
    (s : DutState) : Except PyExc α × DutState :=
  let s1 := { s with portOpen := false }  -- self.close()
  match body s1 with
  | (.ok a, s2) => (.ok a, { s2 with portOpen := true })  -- self.open(); return ret
  | (.error e, s2) => (.error e, s2)  -- exception propagates before self.open()

/-- The esptool command line built for one flash attempt in `start_app`
(lines 103-105). -/
def flashArgs (esptool port baud_rate : String) (download_config : List String) :
    List String :=
  ["python", esptool, "--port", port, "--baud", baud_rate] ++ download_config

/-- The baud-rate retry loop of `start_app` (lines 98-110): attempt each rate
in order; `break` on the first success; on `CalledProcessError` rebind the
local `error` and `continue`; when the loop exhausts, the for-else re-raises
the last recorded `error` (initialised to `IDFToolError()` before the loop). -/
def startAppLoop (runTool : List String → Except String Unit)
    (esptool port : String) (download_config : List String) :
    List String → PyExc → DutState → Except PyExc Unit × DutState
  | [], error, s => (.error error, s)
  | baud_rate :: rest, _error, s =>
    let args := flashArgs esptool port baud_rate download_config
    let s1 := { s with calls := s.calls ++ [args] }
    match runTool args with
    | .ok _ => (.ok (), s1)
    | .error out =>
      startAppLoop runTool esptool port download_config rest
        (.calledProcessError out) s1

/-- `start_app` body (lines 81-113), before the `_tool_method` wrapping.
When `erase_nvs` is set it looks up the `"nvs"` partition (a missing entry is
a `KeyError`), creates the temporary file filled with `size` `0xff` bytes,
appends the partition offset and the file name to the download arguments,
runs the retry loop over the fixed rates `["921600", "115200"]`, and in a
`finally` block closes the temporary file on both exit paths. -/
def start_app_body (runTool : List String → Except String Unit)
    (esptool port nvsFileName : String) (download_config : List String)
    (partition_table : List (String × Nat × Nat)) (erase_nvs : Bool) :
    DutState → Except PyExc Unit × DutState :=
  fun s =>
    if erase_nvs then
      match List.lookup "nvs" partition_table with
      | none => (.error (.keyError "nvs"), s)
      | some (address, size) =>
        let nvs_file : TempFile := { isOpen := true, bytes := List.replicate size 0xff }
        let s1 := { s with nvsFile := some nvs_file }
        let download_config := download_config ++ [toString address, nvsFileName]
        let (res, s2) :=
          startAppLoop runTool esptool port download_config
            ["921600", "115200"] (.idfToolError "") s1
        -- finally: nvs_file.close()
        (res, { s2 with nvsFile := s2.nvsFile.map (fun f => { f with isOpen := false }) })
    else
      startAppLoop runTool esptool port download_config
        ["921600", "115200"] (.idfToolError "") s

/-- The `start_app` method as called: `_tool_method` applied to its body. -/
def start_app (runTool : List String → Except String Unit)
    (esptool port nvsFileName : String) (download_config : List String)
    (partition_table : List (String × Nat × Nat)) (erase_nvs : Bool) :
    DutState → Except PyExc Unit × DutState :=
  toolMethod (start_app_body runTool esptool port nvsFileName download_config
    partition_table erase_nvs)

/-- `reset` body (lines 116-122): a single esptool `run` invocation. -/
def reset_body (runTool : List String → Except String Unit)
    (esptool port : String) : DutState → Except PyExc Unit × DutState :=
  fun s => runCheckOutput runTool ["python", esptool, "--port", port, "run"] s

/-- The `reset` method: `_tool_method` applied to its body. -/
def reset (runTool : List String → Except String Unit) (esptool port : String) :
    DutState → Except PyExc Unit × DutState :=
  toolMethod (reset_body runTool esptool port)

/-- `erase_partition` body (lines 125-133): look up the partition (a missing
entry is a `KeyError`) and write `size` `0xFF` bytes to
`.erase_partition.tmp` (`chr(0xFF) * size`, a Python-2 byte string). -/
def erase_partition_body (partition : String)
    (partition_table : List (String × Nat × Nat)) :
    DutState → Except PyExc Unit × DutState :=
  fun s =>
    match List.lookup partition partition_table with
    | none => (.error (.keyError partition), s)
    | some (_address, size) =>
      (.ok (), { s with eraseTmp := some (List.replicate size 0xff) })

/-- The `erase_partition` method: `_tool_method` applied to its body. -/
def erase_partition (partition : String)
    (partition_table : List (String × Nat × Nat)) :
    DutState → Except PyExc Unit × DutState :=
  toolMethod (erase_partition_body partition partition_table)

/-- The esptool `read_flash` command line of `dump_flush` (lines 158-162). -/
def readFlashArgs (esptool port : String) (address size : Nat)
    (output_file : String) : List String :=
  ["python", esptool, "--port", port, "--baud", "921600",
   "--before", "default_reset", "--after", "hard_reset", "read_flash",
   toString address, toString size, output_file]

/-- `dump_flush` body (lines 136-162). `isAbs` and `relpathFromLogFolder`
model the external `os.path.isabs` / `os.path.relpath(-, log_folder)` calls.
The keyword arguments are modelled as options: `"partition" in kwargs` is
checked first (and a missing table entry is a `KeyError`), then
`"address" in kwargs and "size" in kwargs`; otherwise `IDFToolError` is
raised before any tool invocation. -/
def dump_flush_body (runTool : List String → Except String Unit)
    (esptool port : String) (isAbs : String → Bool)
    (relpathFromLogFolder : String → String) (output_file : String)
    (partition : Option String) (address size : Option Nat)
    (partition_table : List (String × Nat × Nat)) :
    DutState → Except PyExc Unit × DutState :=
  fun s =>
    let output_file :=
      if isAbs output_file then output_file else relpathFromLogFolder output_file
    match partition with
    | some name =>
      match List.lookup name partition_table with
      | none => (.error (.keyError name), s)
      | some (offset, sz) =>
        runCheckOutput runTool (readFlashArgs esptool port offset sz output_file) s
    | none =>
      match address, size with
      | some a, some sz =>
        runCheckOutput runTool (readFlashArgs esptool port a sz output_file) s
      | _, _ =>
        (.error (.idfToolError
          "You must specify partition or (address and size) to dump flash"), s)

/-- The `dump_flush` method: `_tool_method` applied to its body. -/
def dump_flush (runTool : List String → Except String Unit)
    (esptool port : String) (isAbs : String → Bool)
    (relpathFromLogFolder : String → String) (output_file : String)
    (partition : Option String) (address size : Option Nat)
    (partition_table : List (String × Nat × Nat)) :
    DutState → Except PyExc Unit × DutState :=
  toolMethod (dump_flush_body runTool esptool port isAbs relpathFromLogFolder
    output_file partition address size partition_table)

section SessionHelpers

/-- Helper: the retry loop only appends to `calls` — it never touches the
port flag, the NVS temporary file or the erase scratch file. -/
theorem startAppLoop_preserves (runTool : List String → Except String Unit)
    (esptool port : String) (download_config : List String) :
    ∀ (rates : List String) (err : PyExc) (s : DutState),
      ((startAppLoop runTool esptool port download_config rates err s).2.portOpen
          = s.portOpen) ∧
      ((startAppLoop runTool esptool port download_config rates err s).2.nvsFile
          = s.nvsFile) ∧
      ((startAppLoop runTool esptool port download_config rates err s).2.eraseTmp
          = s.eraseTmp)
  | [], _err, _s => ⟨rfl, rfl, rfl⟩
  | baud_rate :: rest, err, s => by
    simp only [startAppLoop]
    cases runTool (flashArgs esptool port baud_rate download_config) with
    | ok _ => exact ⟨rfl, rfl, rfl⟩
    | error out =>
      exact startAppLoop_preserves runTool esptool port download_config rest
        (.calledProcessError out) _

/-- Helper: the wrapper returns exactly the wrapped method's result. -/
theorem toolMethod_fst (body : DutState → Except PyExc α × DutState)
    (s : DutState) :
    (toolMethod body s).1 = (body { s with portOpen := false }).1 := by
  simp only [toolMethod]
  rcases body { s with portOpen := false } with ⟨res, s2⟩
  cases res <;> rfl

/-- Helper: the wrapper changes only the port flag of the wrapped method's
final state. -/
theorem toolMethod_snd (body : DutState → Except PyExc α × DutState)
    (s : DutState) :
    ((toolMethod body s).2.calls = (body { s with portOpen := false }).2.calls) ∧
    ((toolMethod body s).2.nvsFile = (body { s with portOpen := false }).2.nvsFile) ∧
    ((toolMethod body s).2.eraseTmp = (body { s with portOpen := false }).2.eraseTmp) := by
  simp only [toolMethod]
  rcases body { s with portOpen := false } with ⟨res, s2⟩
  cases res <;> exact ⟨rfl, rfl, rfl⟩

/-- The close/reopen contract actually satisfied by `_tool_method`: the port
ends open when the wrapped method returns normally, and ends closed when it
raises. -/
def portBracket (r : Except PyExc Unit × DutState) : Prop :=
  (r.1 = .ok () → r.2.portOpen = true) ∧
  (∀ e, r.1 = .error e → r.2.portOpen = false)

/-- Helper: `_tool_method` around any body that does not itself toggle the
port flag reopens the port exactly on the normal return and leaves it closed
on the raising path. -/
theorem toolMethod_portBracket (body : DutState → Except PyExc Unit × DutState)
    (hpres : ∀ t, ((body t).2).portOpen = t.portOpen) (s : DutState) :
    portBracket (toolMethod body s) := by
  simp only [portBracket, toolMethod]
  have h2 := hpres { s with portOpen := false }
  rcases hb : body { s with portOpen := false } with ⟨res, s2⟩
  rw [hb] at h2
  cases res with
  | ok a =>
    exact ⟨fun _ => rfl, fun e he => nomatch he⟩
  | error e =>
    exact ⟨fun he => (nomatch he), fun e2 _ => h2⟩

/-- Helper: the `start_app` body never toggles the port flag. -/
theorem start_app_body_preserves_port (runTool : List String → Except String Unit)
    (esptool port nvsFileName : String) (download_config : List String)
    (partition_table : List (String × Nat × Nat)) (erase_nvs : Bool)
    (t : DutState) :
    ((start_app_body runTool esptool port nvsFileName download_config
        partition_table erase_nvs t).2).portOpen = t.portOpen := by
  unfold start_app_body
  cases erase_nvs with
  | false =>
    simp only [Bool.false_eq_true, if_false]
    exact (startAppLoop_preserves runTool esptool port download_config _ _ t).1
  | true =>
    simp only [if_true]
    cases List.lookup "nvs" partition_table with
    | none => rfl
    | some p =>
      rcases p with ⟨address, size⟩
      exact (startAppLoop_preserves runTool esptool port
        (download_config ++ [toString address, nvsFileName]) _ _ _).1

/-- Helper: the `erase_partition` body never toggles the port flag. -/
theorem erase_partition_body_preserves_port (partition : String)
    (partition_table : List (String × Nat × Nat)) (t : DutState) :
    ((erase_partition_body partition partition_table t).2).portOpen = t.portOpen := by
  unfold erase_partition_body
  cases List.lookup partition partition_table with
  | none => rfl
  | some p => rcases p with ⟨address, size⟩; rfl

/-- Helper: the `dump_flush` body never toggles the port flag. -/
theorem dump_flush_body_preserves_port (runTool : List String → Except String Unit)
    (esptool port : String) (isAbs : String → Bool)
    (relpathFromLogFolder : String → String) (output_file : String)
    (partition : Option String) (address size : Option Nat)
    (partition_table : List (String × Nat × Nat)) (t : DutState) :
    ((dump_flush_body runTool esptool port isAbs relpathFromLogFolder output_file
        partition address size partition_table t).2).portOpen = t.portOpen := by
  unfold dump_flush_body
  cases partition with
  | some name =>
    dsimp only
    cases List.lookup name partition_table with
    | none => rfl
    | some p => rcases p with ⟨offset, sz⟩; rfl
  | none =>
    cases address with
    | none => cases size <;> rfl
    | some a => cases size <;> rfl

end SessionHelpers

section RetryHelpers

/-- Helper: when the first attempted rate succeeds, the loop stops at once. -/
theorem startAppLoop_first_ok (runTool : List String → Except String Unit)
    (esptool port : String) (cfg : List String) (err : PyExc) (s : DutState)
    (h1 : runTool (flashArgs esptool port "921600" cfg) = .ok ()) :
    startAppLoop runTool esptool port cfg ["921600", "115200"] err s =
      (.ok (), { s with calls := s.calls ++ [flashArgs esptool port "921600" cfg] }) := by
  simp only [startAppLoop]
  rw [h1]

/-- Helper: first rate fails, second succeeds — both are attempted, in order. -/
theorem startAppLoop_fail_then_ok (runTool : List String → Except String Unit)
    (esptool port : String) (cfg : List String) (err : PyExc) (s : DutState)
    (out1 : String)
    (h1 : runTool (flashArgs esptool port "921600" cfg) = .error out1)
    (h2 : runTool (flashArgs esptool port "115200" cfg) = .ok ()) :
    startAppLoop runTool esptool port cfg ["921600", "115200"] err s =
      (.ok (), { s with calls := s.calls ++ [flashArgs esptool port "921600" cfg,
                                             flashArgs esptool port "115200" cfg] }) := by
  simp only [startAppLoop]
  rw [h1]
  simp only [startAppLoop]
  rw [h2]
  simp

/-- Helper: both rates fail — the loop re-raises the last recorded failure. -/
theorem startAppLoop_two_fail (runTool : List String → Except String Unit)
    (esptool port : String) (cfg : List String) (err : PyExc) (s : DutState)
    (out1 out2 : String)
    (h1 : runTool (flashArgs esptool port "921600" cfg) = .error out1)
    (h2 : runTool (flashArgs esptool port "115200" cfg) = .error out2) :
    startAppLoop runTool esptool port cfg ["921600", "115200"] err s =
      (.error (.calledProcessError out2),
       { s with calls := s.calls ++ [flashArgs esptool port "921600" cfg,
                                     flashArgs esptool port "115200" cfg] }) := by
  simp only [startAppLoop]
  rw [h1]
  simp only [startAppLoop]
  rw [h2]
  simp

end RetryHelpers

/-- Claim C2: whenever every baud-rate attempt fails, `start_app` raises a
single error that is exactly the recorded failure of the LAST attempted rate
(`115200`) — not the first attempt's failure and not an aggregate. Stated for
both values of the erase-NVS flag (the retry loop is the same; only the
download arguments differ). -/
theorem c2_exhaustion_last_failure (runTool : List String → Except String Unit)
    (esptool port nvsFileName : String) (download_config : List String)
    (partition_table : List (String × Nat × Nat)) (s : DutState)
    (out1 out2 : String) :
    (runTool (flashArgs esptool port "921600" download_config) = .error out1 →
     runTool (flashArgs esptool port "115200" download_config) = .error out2 →
     (start_app runTool esptool port nvsFileName download_config partition_table
        false s).1 = .error (.calledProcessError out2)) ∧
    (∀ address size,
     List.lookup "nvs" partition_table = some (address, size) →
     runTool (flashArgs esptool port "921600"
        (download_config ++ [toString address, nvsFileName])) = .error out1 →
     runTool (flashArgs esptool port "115200"
        (download_config ++ [toString address, nvsFileName])) = .error out2 →
     (start_app runTool esptool port nvsFileName download_config partition_table
        true s).1 = .error (.calledProcessError out2)) := by
  constructor
  · intro h1 h2
    rw [start_app, toolMethod_fst]
    simp only [start_app_body]
    rw [if_neg Bool.false_ne_true]
    rw [startAppLoop_two_fail runTool esptool port download_config _ _ out1 out2 h1 h2]
  · intro address size hlk h1 h2
    rw [start_app, toolMethod_fst]
    simp only [start_app_body]
    rw [if_pos trivial, hlk]
    dsimp only
    rw [startAppLoop_two_fail runTool esptool port
      (download_config ++ [toString address, nvsFileName]) _ _ out1 out2 h1 h2]

/-- Witness for C2: both attempts fail with distinct diagnostics; the raised
error carries the second (115200) diagnostic, not the first. -/
theorem c2_exhaustion_last_failure_witness :
    (start_app
      (fun args => if "921600" ∈ args then Except.error "fail at 921600"
                   else Except.error "fail at 115200")
      "esptool.py" "/dev/ttyUSB0" "/tmp/nvs" ["0x10000", "app.bin"] [] false
      ⟨true, none, none, []⟩).1 = .error (.calledProcessError "fail at 115200") :=
  (c2_exhaustion_last_failure
    (fun args => if "921600" ∈ args then Except.error "fail at 921600"
                 else Except.error "fail at 115200")
    "esptool.py" "/dev/ttyUSB0" "/tmp/nvs" ["0x10000", "app.bin"] []
    ⟨true, none, none, []⟩ "fail at 921600" "fail at 115200").1
    rfl rfl

/-- Claim C3: the retry loop attempts the fixed rate list
`["921600", "115200"]` in that order; when the `921600` attempt succeeds,
`start_app` returns success having spawned exactly that one tool call, so
`115200` is never attempted; when `921600` fails, the `115200` call is
spawned right after it. -/
theorem c3_retry_order_short_circuit (runTool : List String → Except String Unit)
    (esptool port nvsFileName : String) (download_config : List String)
    (partition_table : List (String × Nat × Nat)) (s : DutState) :
    (runTool (flashArgs esptool port "921600" download_config) = .ok () →
      (start_app runTool esptool port nvsFileName download_config partition_table
         false s).1 = .ok () ∧
      (start_app runTool esptool port nvsFileName download_config partition_table
         false s).2.calls =
        s.calls ++ [flashArgs esptool port "921600" download_config]) ∧
    (∀ out1,
      runTool (flashArgs esptool port "921600" download_config) = .error out1 →
      (start_app runTool esptool port nvsFileName download_config partition_table
         false s).2.calls =
        s.calls ++ [flashArgs esptool port "921600" download_config,
                    flashArgs esptool port "115200" download_config]) := by
  constructor
  · intro h1
    constructor
    · rw [start_app, toolMethod_fst]
      simp only [start_app_body]
      rw [if_neg Bool.false_ne_true]
      rw [startAppLoop_first_ok runTool esptool port download_config _ _ h1]
    · rw [start_app, (toolMethod_snd _ s).1]
      simp only [start_app_body]
      rw [if_neg Bool.false_ne_true]
      rw [startAppLoop_first_ok runTool esptool port download_config _ _ h1]
  · intro out1 h1
    rw [start_app, (toolMethod_snd _ s).1]
    simp only [start_app_body]
    rw [if_neg Bool.false_ne_true]
    cases h2 : runTool (flashArgs esptool port "115200" download_config) with
    | ok u =>
      cases u
      rw [startAppLoop_fail_then_ok runTool esptool port download_config _ _ out1 h1 h2]
    | error out2 =>
      rw [startAppLoop_two_fail runTool esptool port download_config _ _ out1 out2 h1 h2]

/-- Witness for C3: with a tool that succeeds at once, exactly one command
line (baud 921600) is spawned and the method returns success. -/
theorem c3_retry_order_short_circuit_witness :
    (start_app (fun _ => .ok ()) "esptool.py" "/dev/ttyUSB0" "/tmp/nvs"
       ["0x10000", "app.bin"] [] false ⟨true, none, none, []⟩).1 = .ok () ∧
    (start_app (fun _ => .ok ()) "esptool.py" "/dev/ttyUSB0" "/tmp/nvs"
       ["0x10000", "app.bin"] [] false ⟨true, none, none, []⟩).2.calls =
      [flashArgs "esptool.py" "/dev/ttyUSB0" "921600" ["0x10000", "app.bin"]] :=
  (c3_retry_order_short_circuit (fun _ => .ok ()) "esptool.py" "/dev/ttyUSB0"
    "/tmp/nvs" ["0x10000", "app.bin"] [] ⟨true, none, none, []⟩).1 rfl

/-- Claim C10: with the erase-NVS option set, the temporary NVS image file —
created open and filled with `size` `0xFF` bytes — is closed in the method's
final state on every exit path: the `try/finally` runs `nvs_file.close()`
whether the retry loop broke on success or re-raised the last failure. The
conclusion holds for every `runTool`, i.e. for every outcome of the
baud-rate attempts. -/
theorem c10_nvs_file_closed (runTool : List String → Except String Unit)
    (esptool port nvsFileName : String) (download_config : List String)
    (partition_table : List (String × Nat × Nat)) (s : DutState)
    (address size : Nat)
    (hlk : List.lookup "nvs" partition_table = some (address, size)) :
    ((start_app runTool esptool port nvsFileName download_config partition_table
        true s).2).nvsFile =
      some { isOpen := false, bytes := List.replicate size 0xff } := by
  rw [start_app, (toolMethod_snd _ s).2.1]
  simp only [start_app_body]
  rw [if_pos trivial, hlk]
  dsimp only
  have hp := (startAppLoop_preserves runTool esptool port
    (download_config ++ [toString address, nvsFileName]) ["921600", "115200"]
    (.idfToolError "")
    { s with portOpen := false,
             nvsFile := some { isOpen := true, bytes := List.replicate size 0xff } }).2.1
  rw [hp]
  rfl

/-- Witness for C10: every attempt fails, the error propagates, and the file
is nonetheless closed. -/
theorem c10_nvs_file_closed_witness :
    ((start_app (fun _ => .error "flash failed") "esptool.py" "/dev/ttyUSB0"
        "/tmp/nvs" [] [("nvs", 36864, 3)] true ⟨true, none, none, []⟩).2).nvsFile =
      some { isOpen := false, bytes := List.replicate 3 0xff } :=
  c10_nvs_file_closed (fun _ => .error "flash failed") "esptool.py" "/dev/ttyUSB0"
    "/tmp/nvs" [] [("nvs", 36864, 3)] ⟨true, none, none, []⟩ 36864 3 rfl

/-- Claim C1 as stated is FALSE on the code: `_tool_method` runs
`self.close(); ret = func(...); self.open()` with no try/finally, so when the
wrapped operation raises — here `start_app` after both baud-rate attempts
fail — the error propagates with the port still closed, starting from a
session whose port was open. -/
theorem c1_counterexample :
    ((start_app (fun _ => .error "flash failed") "esptool.py" "/dev/ttyUSB0"
        "/tmp/nvs" [] [] false ⟨true, none, none, []⟩).1 =
      .error (.calledProcessError "flash failed")) ∧
    ((start_app (fun _ => .error "flash failed") "esptool.py" "/dev/ttyUSB0"
        "/tmp/nvs" [] [] false ⟨true, none, none, []⟩).2).portOpen = false :=
  ⟨rfl, rfl⟩

/-- Claim C1 (amended): for every tool-wrapped operation (`start_app`,
`reset`, `erase_partition`, `dump_flush`) the port is closed before the
wrapped operation; it is reopened before control returns ONLY on the normal
return path, while on the raising path the error propagates with the port
left closed (no reopen). -/
theorem c1_amended_port_bracket (runTool : List String → Except String Unit)
    (esptool port nvsFileName output_file partitionName : String)
    (download_config : List String) (partition_table : List (String × Nat × Nat))
    (erase_nvs : Bool) (isAbs : String → Bool) (relpath : String → String)
    (partition : Option String) (address size : Option Nat) (s : DutState) :
    portBracket (start_app runTool esptool port nvsFileName download_config
      partition_table erase_nvs s) ∧
    portBracket (reset runTool esptool port s) ∧
    portBracket (erase_partition partitionName partition_table s) ∧
    portBracket (dump_flush runTool esptool port isAbs relpath output_file
      partition address size partition_table s) :=
  ⟨toolMethod_portBracket _ (start_app_body_preserves_port runTool esptool port
      nvsFileName download_config partition_table erase_nvs) s,
   toolMethod_portBracket _ (fun _ => rfl) s,
   toolMethod_portBracket _ (erase_partition_body_preserves_port partitionName
      partition_table) s,
   toolMethod_portBracket _ (dump_flush_body_preserves_port runTool esptool port
      isAbs relpath output_file partition address size partition_table) s⟩

/-- Witness for the amended C1: a successful `reset` ends with the port open;
a `dump_flush` that raises (no partition, no address/size) ends with the port
closed. -/
theorem c1_amended_port_bracket_witness :
    ((reset (fun _ => .ok ()) "esptool.py" "/dev/ttyUSB0"
        ⟨true, none, none, []⟩).2).portOpen = true ∧
    ((dump_flush (fun _ => .ok ()) "esptool.py" "/dev/ttyUSB0" (fun _ => true)
        (fun x => x) "dump.bin" none none none []
        ⟨true, none, none, []⟩).2).portOpen = false :=
  ⟨(c1_amended_port_bracket (fun _ => .ok ()) "esptool.py" "/dev/ttyUSB0"
      "/tmp/nvs" "dump.bin" "nvs" [] [] false (fun _ => true) (fun x => x)
      none none none ⟨true, none, none, []⟩).2.1.1 rfl,
   (c1_amended_port_bracket (fun _ => .ok ()) "esptool.py" "/dev/ttyUSB0"
      "/tmp/nvs" "dump.bin" "nvs" [] [] false (fun _ => true) (fun x => x)
      none none none ⟨true, none, none, []⟩).2.2.2.2
     (.idfToolError "You must specify partition or (address and size) to dump flash")
     rfl⟩

/-- Claim C8 as stated is FALSE on the code: a call supplying BOTH a
partition name and an address-and-size pair (the "ambiguous combination")
does NOT raise a configuration error — `"partition" in kwargs` is checked
first and wins, the tool is invoked with the partition's range, and the call
succeeds. -/
theorem c8_counterexample :
    ((dump_flush (fun _ => .ok ()) "esptool.py" "/dev/ttyUSB0" (fun _ => true)
        (fun x => x) "dump.bin" (some "nvs") (some 0) (some 1)
        [("nvs", 36864, 24576)] ⟨true, none, none, []⟩).1 = .ok ()) ∧
    ((dump_flush (fun _ => .ok ()) "esptool.py" "/dev/ttyUSB0" (fun _ => true)
        (fun x => x) "dump.bin" (some "nvs") (some 0) (some 1)
        [("nvs", 36864, 24576)] ⟨true, none, none, []⟩).2).calls =
      [readFlashArgs "esptool.py" "/dev/ttyUSB0" 36864 24576 "dump.bin"] :=
  ⟨rfl, rfl⟩

/-- Claim C8 (amended): `dump_flush` requires a partition name or a complete
address-and-size pair. Supplying neither — in particular an address or a
size alone — raises `IDFToolError` before any tool invocation (no command
line is spawned). A supplied partition takes precedence and the operation
proceeds with the partition's byte range, even when address and size are
also supplied (the ambiguous combination raises no error); with no partition,
a complete address-and-size pair proceeds with exactly that range. -/
theorem c8_amended_dump_target (runTool : List String → Except String Unit)
    (esptool port : String) (isAbs : String → Bool) (relpath : String → String)
    (output_file : String) (partition : Option String) (address size : Option Nat)
    (partition_table : List (String × Nat × Nat)) (s : DutState) :
    (partition = none → address = none ∨ size = none →
      (dump_flush runTool esptool port isAbs relpath output_file partition
         address size partition_table s).1 =
        .error (.idfToolError
          "You must specify partition or (address and size) to dump flash") ∧
      (dump_flush runTool esptool port isAbs relpath output_file partition
         address size partition_table s).2.calls = s.calls) ∧
    (∀ name offset sz, partition = some name →
      List.lookup name partition_table = some (offset, sz) →
      (dump_flush runTool esptool port isAbs relpath output_file partition
         address size partition_table s).1 =
        checkOutputExc runTool (readFlashArgs esptool port offset sz
          (if isAbs output_file then output_file else relpath output_file)) ∧
      (dump_flush runTool esptool port isAbs relpath output_file partition
         address size partition_table s).2.calls =
        s.calls ++ [readFlashArgs esptool port offset sz
          (if isAbs output_file then output_file else relpath output_file)]) ∧
    (∀ a b, partition = none → address = some a → size = some b →
      (dump_flush runTool esptool port isAbs relpath output_file partition
         address size partition_table s).1 =
        checkOutputExc runTool (readFlashArgs esptool port a b
          (if isAbs output_file then output_file else relpath output_file)) ∧
      (dump_flush runTool esptool port isAbs relpath output_file partition
         address size partition_table s).2.calls =
        s.calls ++ [readFlashArgs esptool port a b
          (if isAbs output_file then output_file else relpath output_file)]) := by
  refine ⟨?_, ?_, ?_⟩
  · intro hp hor
    subst hp
    constructor
    · rw [dump_flush, toolMethod_fst]
      simp only [dump_flush_body]
      cases ha : address with
      | none => rfl
      | some a =>
        cases hb : size with
        | none => rfl
        | some b =>
          subst ha
          subst hb
          rcases hor with h | h <;> cases h
    · rw [dump_flush, (toolMethod_snd _ s).1]
      simp only [dump_flush_body]
      cases ha : address with
      | none => rfl
      | some a =>
        cases hb : size with
        | none => rfl
        | some b =>
          subst ha
          subst hb
          rcases hor with h | h <;> cases h
  · intro name offset sz hp hlk
    subst hp
    constructor
    · rw [dump_flush, toolMethod_fst]
      simp only [dump_flush_body]
      rw [hlk]
      rfl
    · rw [dump_flush, (toolMethod_snd _ s).1]
      simp only [dump_flush_body]
      rw [hlk]
      rfl
  · intro a b hp ha hb
    subst hp; subst ha; subst hb
    constructor
    · rw [dump_flush, toolMethod_fst]
      rfl
    · rw [dump_flush, (toolMethod_snd _ s).1]
      rfl

/-- Witness for the amended C8: with neither a partition nor an address/size
pair, the method raises the configuration error and spawns no tool call. -/
theorem c8_amended_dump_target_witness :
    ((dump_flush (fun _ => .ok ()) "esptool.py" "/dev/ttyUSB0" (fun _ => true)
        (fun x => x) "dump.bin" none none none [] ⟨true, none, none, []⟩).1 =
      .error (.idfToolError
        "You must specify partition or (address and size) to dump flash")) ∧
    ((dump_flush (fun _ => .ok ()) "esptool.py" "/dev/ttyUSB0" (fun _ => true)
        (fun x => x) "dump.bin" none none none []
        ⟨true, none, none, []⟩).2).calls = [] :=
  (c8_amended_dump_target (fun _ => .ok ()) "esptool.py" "/dev/ttyUSB0"
    (fun _ => true) (fun x => x) "dump.bin" none none none []
    ⟨true, none, none, []⟩).1 rfl (Or.inl rfl)
